import Mathlib

/-!
Verification of the resilient e-commerce asset-generation pipeline.

The development shallowly embeds the pipeline code:
  * `safeParseJson` / `generateAssets`          (src/services/aiService.ts)
  * `tryDoubao` / `mockGenerate` / `volcanoGenerate`  (the volcano client module)
  * `generateAtmosphereImage`                   (src/services/imageService.ts)
  * `composeLocal` / `generateHero`             (src/components/AssetCard.tsx)

JavaScript strings are modelled as sequences of characters (`List Char`);
`JSON.parse` / `JSON.stringify` are modelled by an executable fuel-based
parser and serializer over a `Json` value type.  The parser is restricted
to integer numerals (no fraction/exponent forms) — no value produced or
consumed by the pipeline uses non-integer numbers.  Network behaviour is a
parameter (`FetchOutcome`): a call either throws, or returns a response
with a success flag and an optional JSON body (`none` models a body whose
JSON decoding throws).
-/

/-- JSON values.  Objects keep their fields in insertion order, as
`JSON.stringify` serializes them. -/
inductive Json where
  | null : Json
  | bool (b : Bool) : Json
  | num (n : Int) : Json
  | str (s : String) : Json
  | arr (xs : List Json) : Json
  | obj (ms : List (String × Json)) : Json

/-- The character `{`, kept out of character literals. -/
def lbrace : Char := Char.ofNat 123

/-- The character `}`, kept out of character literals. -/
def rbrace : Char := Char.ofNat 125

/-- Property access `j.k` (returns `none` when `j` is not an object or the
key is absent). -/
def Json.jget (j : Json) (k : String) : Option Json :=
  match j with
  | Json.obj ms => (ms.find? (fun kv => kv.1 == k)).map (fun kv => kv.2)
  | _ => none

/-- Index access `j[i]` (returns `none` when `j` is not an array or the
index is out of range). -/
def Json.jidx (j : Json) (i : Nat) : Option Json :=
  match j with
  | Json.arr xs => xs.get? i
  | _ => none

/-- JavaScript truthiness of a JSON value. -/
def jsTruthy : Json → Bool
  | Json.null => false
  | Json.bool b => b
  | Json.num n => !(n == 0)
  | Json.str s => !s.data.isEmpty
  | Json.arr _ => true
  | Json.obj _ => true

/-- JavaScript falsiness of an optional environment string (absent or
empty strings are falsy). -/
def falsy : Option String → Bool
  | none => true
  | some s => s.data.isEmpty

/-- JavaScript `a || b` for an optional string `a` and default `b`. -/
def jsOrD (a : Option String) (b : String) : String :=
  if falsy a then b else a.getD ""

/-- Hexadecimal digit character for `n < 16` (lowercase, as
`JSON.stringify` emits). -/
def hexDigit (n : Nat) : Char :=
  if n < 10 then Char.ofNat (48 + n) else Char.ofNat (87 + n)

/-- Numeric value of a hexadecimal digit character. -/
def hexVal (c : Char) : Option Nat :=
  if 48 ≤ c.toNat ∧ c.toNat ≤ 57 then some (c.toNat - 48)
  else if 97 ≤ c.toNat ∧ c.toNat ≤ 102 then some (c.toNat - 87)
  else if 65 ≤ c.toNat ∧ c.toNat ≤ 70 then some (c.toNat - 55)
  else none

/-- String-escape of one character, following `JSON.stringify`: quote and
backslash get a backslash escape, the named control characters get their
short escapes, other control characters get a `u00XY` escape, everything
else is emitted verbatim. -/
def escapeChar (c : Char) : List Char :=
  if c = '"' then ['\\', '"']
  else if c = '\\' then ['\\', '\\']
  else if c = '\n' then ['\\', 'n']
  else if c = '\r' then ['\\', 'r']
  else if c = '\t' then ['\\', 't']
  else if c = Char.ofNat 8 then ['\\', 'b']
  else if c = Char.ofNat 12 then ['\\', 'f']
  else if c.toNat < 32 then
    ['\\', 'u', '0', '0', hexDigit (c.toNat / 16), hexDigit (c.toNat % 16)]
  else [c]

/-- Escape a character sequence onto an accumulator. -/
def escAcc : List Char → List Char → List Char
  | [], acc => acc
  | c :: cs, acc => escapeChar c ++ escAcc cs acc

/-- Work items of the serializer: a value, an object-member list, or an
array-item list. -/
inductive JWork where
  | v (j : Json) : JWork
  | ms (l : List (String × Json)) : JWork
  | xs (l : List Json) : JWork

/-- Decimal digits of a natural number (auxiliary, fuel-driven). -/
def natCharsAux : Nat → Nat → List Char
  | 0, _ => []
  | f + 1, n => if n = 0 then [] else natCharsAux f (n / 10) ++ [Char.ofNat (48 + n % 10)]

/-- Decimal digits of a natural number. -/
def natChars (n : Nat) : List Char :=
  if n = 0 then ['0'] else natCharsAux (n + 1) n

/-- Decimal representation of an integer. -/
def intChars (n : Int) : List Char :=
  if n < 0 then '-' :: natChars n.natAbs else natChars n.natAbs

/-- Accumulator-style JSON serializer (the model of `JSON.stringify`).
The fuel bounds the nesting structure; every use in this development stays
far below it. -/
def serJ : Nat → JWork → List Char → List Char
  | 0, _, acc => acc
  | f + 1, JWork.v j, acc =>
    match j with
    | Json.null => 'n' :: 'u' :: 'l' :: 'l' :: acc
    | Json.bool true => 't' :: 'r' :: 'u' :: 'e' :: acc
    | Json.bool false => 'f' :: 'a' :: 'l' :: 's' :: 'e' :: acc
    | Json.num n => intChars n ++ acc
    | Json.str s => '"' :: escAcc s.data ('"' :: acc)
    | Json.arr l => '[' :: serJ f (JWork.xs l) (']' :: acc)
    | Json.obj ms => lbrace :: serJ f (JWork.ms ms) (rbrace :: acc)
  | f + 1, JWork.ms l, acc =>
    match l with
    | [] => acc
    | (k, v) :: t =>
      '"' :: escAcc k.data ('"' :: ':' ::
        serJ f (JWork.v v) (match t with | [] => acc | _ => ',' :: serJ f (JWork.ms t) acc))
  | f + 1, JWork.xs l, acc =>
    match l with
    | [] => acc
    | x :: t =>
      serJ f (JWork.v x) (match t with | [] => acc | _ => ',' :: serJ f (JWork.xs t) acc)

/-- Model of `JSON.stringify`, producing the character sequence. -/
def serializeJson (j : Json) : List Char := serJ 20 (JWork.v j) []

/-- Model of `JSON.stringify`. -/
def jsonStringify (j : Json) : String := String.mk (serializeJson j)

/-- Skip JSON whitespace. -/
def skipWs : List Char → List Char
  | [] => []
  | c :: cs => if c = ' ' ∨ c = '\t' ∨ c = '\n' ∨ c = '\r' then skipWs cs else c :: cs

/-- Short escapes accepted after a backslash in a JSON string. -/
def simpleUnescape (e : Char) : Option Char :=
  if e = '"' then some '"'
  else if e = '\\' then some '\\'
  else if e = '/' then some '/'
  else if e = 'n' then some '\n'
  else if e = 't' then some '\t'
  else if e = 'r' then some '\r'
  else if e = 'b' then some (Char.ofNat 8)
  else if e = 'f' then some (Char.ofNat 12)
  else none

/-- Decode four hexadecimal digits (after a `u` escape) into a character
and the remaining input. -/
def hexQuad : List Char → Option (Char × List Char)
  | a :: b :: c2 :: d :: r3 =>
    (match hexVal a, hexVal b, hexVal c2, hexVal d with
     | some x1, some x2, some x3, some x4 =>
       some (Char.ofNat (((x1 * 16 + x2) * 16 + x3) * 16 + x4), r3)
     | _, _, _, _ => none)
  | _ => none

/-- Parse the body of a JSON string (after the opening quote), returning
the decoded characters and the input remaining after the closing quote.
The fuel is decremented per decoded character; each decoded character
consumes at least one input character, so `length + 1` fuel suffices. -/
def parseStringBody : Nat → List Char → Option (List Char × List Char)
  | 0, _ => none
  | _ + 1, [] => none
  | f + 1, c :: rest =>
    if c = '"' then some ([], rest)
    else if c = '\\' then
      (match rest with
       | [] => none
       | e :: r2 =>
         if e = 'u' then
           match hexQuad r2 with
           | some (ch, r3) => (parseStringBody f r3).map (fun p => (ch :: p.1, p.2))
           | none => none
         else
           match simpleUnescape e with
           | some ch => (parseStringBody f r2).map (fun p => (ch :: p.1, p.2))
           | none => none)
    else if 32 ≤ c.toNat then (parseStringBody f rest).map (fun p => (c :: p.1, p.2))
    else none

/-- Leading decimal digits of the input. -/
def takeDigits : List Char → List Char × List Char
  | [] => ([], [])
  | c :: cs =>
    if c.isDigit then
      match takeDigits cs with
      | (d, r) => (c :: d, r)
    else ([], c :: cs)

/-- Natural number denoted by a digit sequence. -/
def digitsToNat (ds : List Char) : Nat :=
  ds.foldl (fun a c => a * 10 + (c.toNat - 48)) 0

/-- Parse a nonempty run of decimal digits as a natural number. -/
def parseNatNum (cs : List Char) : Option (Nat × List Char) :=
  match takeDigits cs with
  | ([], _) => none
  | (ds, r) => some (digitsToNat ds, r)

/-- Parser modes: a full value, the members of an object (after `{`, first
member known present), or the items of an array (after `[`, first item
known present). -/
inductive PMode where
  | value : PMode
  | members : PMode
  | items : PMode

/-- Prepend a member to an object value (auxiliary to the parser; the
non-object branch is unreachable). -/
def consMember (k : String) (v : Json) : Json → Json
  | Json.obj ms => Json.obj ((k, v) :: ms)
  | j => j

/-- Prepend an item to an array value (auxiliary to the parser; the
non-array branch is unreachable). -/
def consItem (v : Json) : Json → Json
  | Json.arr xs => Json.arr (v :: xs)
  | j => j

/-- Fuel-driven JSON parser (the model of `JSON.parse`).  The fuel is
decremented at value/member/item boundaries; each such boundary consumes
at least one input character, so `length + 20` fuel always suffices. -/
def parseJ : Nat → PMode → List Char → Option (Json × List Char)
  | 0, _, _ => none
  | f + 1, PMode.value, cs =>
    match skipWs cs with
    | [] => none
    | c :: rest =>
      if c = '"' then
        (parseStringBody (rest.length + 1) rest).map
          (fun p => (Json.str (String.mk p.1), p.2))
      else if c = lbrace then
        match skipWs rest with
        | [] => none
        | c2 :: r2 =>
          if c2 = rbrace then some (Json.obj [], r2)
          else parseJ f PMode.members (c2 :: r2)
      else if c = '[' then
        match skipWs rest with
        | [] => none
        | c2 :: r2 =>
          if c2 = ']' then some (Json.arr [], r2)
          else parseJ f PMode.items (c2 :: r2)
      else
        match c :: rest with
        | 't' :: 'r' :: 'u' :: 'e' :: r => some (Json.bool true, r)
        | 'f' :: 'a' :: 'l' :: 's' :: 'e' :: r => some (Json.bool false, r)
        | 'n' :: 'u' :: 'l' :: 'l' :: r => some (Json.null, r)
        | '-' :: r => (parseNatNum r).map (fun p => (Json.num (-(p.1 : Int)), p.2))
        | r => (parseNatNum r).map (fun p => (Json.num (p.1 : Int), p.2))
  | f + 1, PMode.members, cs =>
    match skipWs cs with
    | '"' :: r1 =>
      match parseStringBody (r1.length + 1) r1 with
      | some (k, r2) =>
        (match skipWs r2 with
         | ':' :: r3 =>
           match parseJ f PMode.value r3 with
           | some (v, r4) =>
             (match skipWs r4 with
              | [] => none
              | c5 :: r5 =>
                if c5 = ',' then
                  (parseJ f PMode.members r5).map
                    (fun p => (consMember (String.mk k) v p.1, p.2))
                else if c5 = rbrace then some (Json.obj [(String.mk k, v)], r5)
                else none)
           | none => none
         | _ => none)
      | none => none
    | _ => none
  | f + 1, PMode.items, cs =>
    match parseJ f PMode.value cs with
    | some (v, r1) =>
      (match skipWs r1 with
       | ',' :: r2 => (parseJ f PMode.items r2).map (fun p => (consItem v p.1, p.2))
       | ']' :: r2 => some (Json.arr [v], r2)
       | _ => none)
    | none => none

/-- Model of `JSON.parse`: parse one value and require only whitespace to
remain. -/
def jsonParse (s : String) : Option Json :=
  match parseJ (s.data.length + 20) PMode.value s.data with
  | some (j, rest) => if (skipWs rest).isEmpty then some j else none
  | none => none

/-- Conversation roles. -/
inductive Role where
  | system : Role
  | user : Role
  | assistant : Role
deriving BEq, DecidableEq, Repr

/-- A chat turn (`ChatMessage` in the volcano client module). -/
structure ChatMessage where
  role : Role
  content : String
deriving BEq, Repr

/-- Process-wide provider configuration (the `DOUBAO_*` environment
variables, each possibly absent). -/
structure Env where
  apiKey : Option String
  endpoint : Option String
  model : Option String
  imageEndpoint : Option String
  imageModel : Option String

/-- Behaviour of one network call: a thrown transport error, or a response
with a success flag and an optional JSON body (`none` models a body whose
JSON decoding throws). -/
inductive FetchOutcome where
  | throw : FetchOutcome
  | resp (ok : Bool) (body : Option Json) : FetchOutcome

/-- Content of a mapped message sent to the provider: plain text, or the
two-part image + text structure. -/
inductive MappedContent where
  | textOnly (text : String) : MappedContent
  | imageAndText (url : String) (text : String) : MappedContent
deriving BEq, Repr

/-- A message as mapped for the provider request body. -/
structure MappedMsg where
  role : Role
  content : MappedContent
deriving BEq, Repr

/-- Mapping of one message in `tryDoubao`: the image reference is attached
exactly when the message is a user turn, the image URL is truthy, and the
message is the last of the list. -/
def mapOne (len : Nat) (img : Option String) (idx : Nat) (m : ChatMessage) : MappedMsg :=
  match img with
  | some u =>
    if m.role == Role.user && !u.data.isEmpty && idx == len - 1 then
      { role := Role.user, content := MappedContent.imageAndText u m.content }
    else { role := m.role, content := MappedContent.textOnly m.content }
  | none => { role := m.role, content := MappedContent.textOnly m.content }

/-- Index-threading recursion of the message mapping. -/
def mapMessagesAux (len : Nat) (img : Option String) : Nat → List ChatMessage → List MappedMsg
  | _, [] => []
  | i, m :: rest => mapOne len img i m :: mapMessagesAux len img (i + 1) rest

/-- The `messages.map((m, idx) => ...)` mapping of `tryDoubao`. -/
def mapMessages (msgs : List ChatMessage) (img : Option String) : List MappedMsg :=
  mapMessagesAux msgs.length img 0 msgs

/-- The request body `tryDoubao` sends when configured (`none` when the
capability check fails and no network attempt is made). -/
structure DoubaoRequest where
  model : String
  messages : List MappedMsg
  maxCompletionTokens : Nat

/-- Request construction of `tryDoubao`: absent when the API key or
endpoint is not configured (no network attempt). -/
def tryDoubaoRequest (env : Env) (msgs : List ChatMessage) (img : Option String)
    (modelArg : Option String) : Option DoubaoRequest :=
  if falsy env.apiKey || falsy env.endpoint then none
  else some
    { model := jsOrD modelArg (jsOrD env.model "doubao-seed-1-6-251015")
      messages := mapMessages msgs img
      maxCompletionTokens := 2048 }

/-- The optional chain `data?.choices?.[0]?.message?.content`. -/
def contentRaw (data : Json) : Option Json :=
  data.jget "choices" >>= fun a => a.jidx 0 >>= fun b => b.jget "message" >>= fun c =>
    c.jget "content"

/-- The expression `data?.choices?.[0]?.message?.content ?? ''` of
`tryDoubao`: a missing or null completion content collapses to the empty
string, any other value is passed through unchecked. -/
def coalesceContent (data : Json) : Json :=
  match contentRaw data with
  | some Json.null => Json.str ""
  | some v => v
  | none => Json.str ""

/-- Result of `tryDoubao`: `none` is the unavailability sentinel (the
function's `null`).  When a call is made and succeeds, the coalesced
completion content is returned (a `Json` value, since the TypeScript
`as string` cast performs no check). -/
def tryDoubao (env : Env) (o : FetchOutcome) (msgs : List ChatMessage) (img : Option String)
    (modelArg : Option String) : Option Json :=
  match tryDoubaoRequest env msgs img modelArg with
  | none => none
  | some _ =>
    match o with
    | FetchOutcome.throw => none
    | FetchOutcome.resp ok body =>
      if !ok then none
      else
        match body with
        | none => none
        | some data => some (coalesceContent data)

/-- Title rule of `mockGenerate`: the first 24 characters of the prompt,
or the fixed default phrase when that slice is empty. -/
def mockTitle (p : String) : String :=
  let t := String.mk (p.data.take 24)
  if t.data.isEmpty then "优选好物" else t

/-- The mock asset object built by `mockGenerate`, as a JSON value. -/
def mockAssetJson (p : String) : Json :=
  Json.obj
    [ ("title", Json.str (mockTitle p))
    , ("selling_points", Json.arr
        [Json.str "品质保障", Json.str "便捷实用", Json.str "性价比高", Json.str "口碑推荐"])
    , ("atmosphere", Json.str "焕新季")
    , ("video_script", Json.arr
        [ Json.obj [("s", Json.num 0), ("v", Json.str "开场特写")]
        , Json.obj [("s", Json.num 2), ("v", Json.str "使用场景展示")]
        , Json.obj [("s", Json.num 6), ("v", Json.str "卖点字幕与下单引导")] ])
    ]

/-- `mockGenerate`: the deterministic mock, returned as a JSON string. -/
def mockGenerate (p : String) : String := jsonStringify (mockAssetJson p)

/-- JavaScript whitespace for `String.prototype.trim` (ASCII subset; the
pipeline only ever trims model output). -/
def jsWs (c : Char) : Bool := c = ' ' || c = '\t' || c = '\n' || c = '\r'

/-- Model of `String.prototype.trim`. -/
def jsTrim (s : String) : String :=
  String.mk (((s.data.dropWhile jsWs).reverse.dropWhile jsWs).reverse)

/-- The `[...messages].reverse().find(m => m.role === 'user')?.content ?? ''`
expression of `volcanoGenerate`. -/
def lastUserContent (msgs : List ChatMessage) : String :=
  match msgs.reverse.find? (fun m => m.role == Role.user) with
  | some m => m.content
  | none => ""

/-- `volcanoGenerate`: returns the provider text when it is a non-blank
string, and otherwise falls back to the mock generated from the last user
message. -/
def volcanoGenerate (env : Env) (o : FetchOutcome) (msgs : List ChatMessage)
    (img : Option String) (modelArg : Option String) : String :=
  match tryDoubao env o msgs img modelArg with
  | some (Json.str s) =>
    if (jsTrim s).data.isEmpty then mockGenerate (lastUserContent msgs) else s
  | _ => mockGenerate (lastUserContent msgs)

/-- A generator built from the provider stack, with a per-call network
behaviour (`os n` is the outcome of the `n`-th call). -/
def genFromOutcomes (env : Env) (os : Nat → FetchOutcome) :
    Nat → List ChatMessage → Option String → String :=
  fun n msgs img => volcanoGenerate env (os n) msgs img none

/-- First index of a character in the input (`String.prototype.indexOf`). -/
def indexOfChar : List Char → Char → Option Nat
  | [], _ => none
  | c :: cs, t => if c = t then some 0 else (indexOfChar cs t).map (· + 1)

/-- Last index of a character in the input
(`String.prototype.lastIndexOf`). -/
def lastIndexOfChar (cs : List Char) (t : Char) : Option Nat :=
  (indexOfChar cs.reverse t).map (fun i => cs.length - 1 - i)

/-- `safeParseJson` of the AI service: extract the substring from the
first `{` to the last `}` when the latter follows the former, otherwise
take the whole text, and parse it; any parse failure yields `none`. -/
def safeParseJson (text : String) : Option Json :=
  match indexOfChar text.data lbrace, lastIndexOfChar text.data rbrace with
  | some first, some last =>
    if first < last then
      jsonParse (String.mk ((text.data.drop first).take (last + 1 - first)))
    else jsonParse text
  | _, _ => jsonParse text

/-- The fixed system instruction of the AI service. -/
def SYSTEM_PROMPT : String :=
  "你是电商运营专家。基于用户上传的商品信息与描述，仅返回一个JSON对象：\x7b\"title\":string,\"selling_points\":string[],\"atmosphere\":string,\"video_script\":Array<\x7bs:number,v:string\x7d>\x7d，中文输出，标题10-30字，卖点3-5条，脚本3-10秒。"

/-- The system turn. -/
def sysMsg : ChatMessage := { role := Role.system, content := SYSTEM_PROMPT }

/-- Full-context message list of the first attempt: system instruction,
history verbatim, then the current user description. -/
def fullMessages (desc : String) (history : List ChatMessage) : List ChatMessage :=
  sysMsg :: history ++ [{ role := Role.user, content := desc }]

/-- Minimal-context message list of the retry: system instruction and the
current user description only. -/
def retryMessages (desc : String) : List ChatMessage :=
  [sysMsg, { role := Role.user, content := desc }]

/-- JavaScript truthiness of a nullable JSON value: the `if (data)` test
of `generateAssets`.  `null` (a parse failure, or a parsed JSON `null`)
and the falsy parsed values `0`, `false` and `""` all fail the test. -/
def jsTruthyOpt : Option Json → Bool
  | none => false
  | some v => jsTruthy v

/-- `generateAssets`: first attempt with full context; unless the parse
result passes the JavaScript truthiness test `if (data)`, a single retry
with minimal context, whose result is returned as is (possibly `none`).
The second component records the message list of each client call
actually made, so call counts are observable. -/
def generateAssets (gen : Nat → List ChatMessage → Option String → String)
    (desc : String) (history : List ChatMessage) (img : Option String) :
    Option Json × List (List ChatMessage) :=
  let messages := fullMessages desc history
  let response := gen 0 messages img
  let data := safeParseJson response
  if jsTruthyOpt data = true then (data, [messages])
  else
    let retryMsgs := retryMessages desc
    let retryResponse := gen 1 retryMsgs img
    (safeParseJson retryResponse, [messages, retryMsgs])

/-- Does the haystack start with the pattern? -/
def startsWithL : List Char → List Char → Bool
  | _, [] => true
  | [], _ :: _ => false
  | c :: cs, p :: ps => c == p && startsWithL cs ps

/-- Does the haystack contain the pattern (`String.prototype.includes`)? -/
def containsSub : List Char → List Char → Bool
  | [], pat => pat.isEmpty
  | c :: t, pat => startsWithL (c :: t) pat || containsSub t pat

/-- Replace the first occurrence of the pattern
(`String.prototype.replace` with a string pattern). -/
def replaceFirstL (cs pat rep : List Char) : List Char :=
  match cs with
  | [] => []
  | c :: t =>
    if startsWithL (c :: t) pat then rep ++ (c :: t).drop pat.length
    else c :: replaceFirstL t pat rep

/-- String-level `includes`. -/
def containsStr (s pat : String) : Bool := containsSub s.data pat.data

/-- String-level first-occurrence `replace`. -/
def replaceFirst (s pat rep : String) : String :=
  String.mk (replaceFirstL s.data pat.data rep.data)

/-- Endpoint resolution of `generateAtmosphereImage`: a configured image
endpoint is used as is; otherwise the text endpoint is rewritten by the
fixed substitution when it contains the chat-completions path, else the
hardcoded default is used. -/
def resolveImageEndpoint (env : Env) : String :=
  if falsy env.imageEndpoint then
    let base := jsOrD env.endpoint ""
    if containsStr base "/chat/completions" then
      replaceFirst base "chat/completions" "images/generations"
    else "https://ark.cn-beijing.volces.com/api/v3/images/generations"
  else env.imageEndpoint.getD ""

/-- Input of `generateAtmosphereImage`. -/
structure AtmInput where
  imageUrl : String
  prompt : String
  size : Option String
  model : Option String

/-- URL extraction of `generateAtmosphereImage`:
`data?.data?.[0]?.url || data?.choices?.[0]?.data?.[0]?.url`, then a
string-type check. -/
def urlFromPayload (data : Json) : Option String :=
  let u1 := data.jget "data" >>= fun a => a.jidx 0 >>= fun b => b.jget "url"
  let u2 := data.jget "choices" >>= fun a => a.jidx 0 >>= fun b =>
    b.jget "data" >>= fun c => c.jidx 0 >>= fun d => d.jget "url"
  match (match u1 with
         | some v => if jsTruthy v then some v else u2
         | none => u2) with
  | some (Json.str s) => some s
  | _ => none

/-- `generateAtmosphereImage`: one call to the image endpoint; every
failure (missing key, thrown transport error, non-success status,
unreadable body, or payload without a string URL) collapses to `none`. -/
def generateAtmosphereImage (env : Env) (o : FetchOutcome) (inp : AtmInput) : Option String :=
  let endpoint := resolveImageEndpoint env
  if falsy env.apiKey || endpoint.data.isEmpty then none
  else
    match o with
    | FetchOutcome.throw => none
    | FetchOutcome.resp ok body =>
      if !ok then none
      else
        match body with
        | none => none
        | some data =>
          match urlFromPayload data with
          | some u => some u
          | none => none

/-- Dimensions of a loaded source image. -/
structure ImgDims where
  width : ℚ
  height : ℚ

/-- The drawing produced by `composeLocal` on its fixed square canvas. -/
structure Canvas where
  size : ℚ
  background : String
  ratio : ℚ
  drawW : ℚ
  drawH : ℚ
  drawX : ℚ
  drawY : ℚ
  borderColor : String
  borderInset : ℚ
  borderW : ℚ
  overlayText : String
  font : String
  textX : ℚ
  textY : ℚ

/-- `composeLocal` of `AssetCard`: rejects exactly when the source image
fails to load (`load = none`, the `onerror` path); otherwise draws the
image on a white 1024-unit square canvas, uniformly scaled and centered,
with the accent border and the bottom-centered overlay text. -/
def composeLocal (load : Option ImgDims) (text color : String) : Except String Canvas :=
  match load with
  | none => Except.error "加载图片失败"
  | some d =>
    let size : ℚ := 1024
    let ratio := min (size / d.width) (size / d.height)
    let w := d.width * ratio
    let h := d.height * ratio
    Except.ok
      { size := size, background := "#ffffff", ratio := ratio, drawW := w, drawH := h
        drawX := (size - w) / 2, drawY := (size - h) / 2
        borderColor := color, borderInset := 16, borderW := 8
        overlayText := text, font := "bold 48px sans-serif"
        textX := size / 2, textY := size - 72 }

/-- What `generateHero` ends up displaying: the remote URL field of the
response, or the locally composed raster. -/
inductive HeroSet where
  | remote (u : Option String) : HeroSet
  | localRaster (cv : Canvas) : HeroSet

/-- Observable trace of one `generateHero` run: how many remote requests
and local compositions were issued, and the final outcome (an `error` is
an unhandled rejection escaping the effect). -/
structure HeroTrace where
  remoteCalls : Nat
  localCalls : Nat
  outcome : Except String HeroSet

/-- `generateHero` of `AssetCard`: one remote composition request; on a
success response the returned URL field is displayed; on an unreadable
success body or a thrown transport error the catch handler composes
locally once; on a non-success status the else branch composes locally,
and if that composition rejects the catch handler composes locally a
second time. -/
def generateHero (o : FetchOutcome) (load : Option ImgDims) (text color : String) : HeroTrace :=
  match o with
  | FetchOutcome.resp true (some body) =>
    { remoteCalls := 1, localCalls := 0
      outcome := Except.ok (HeroSet.remote
        (match body.jget "url" with | some (Json.str u) => some u | _ => none)) }
  | FetchOutcome.resp true none =>
    (match composeLocal load text color with
     | Except.ok cv => { remoteCalls := 1, localCalls := 1, outcome := Except.ok (HeroSet.localRaster cv) }
     | Except.error e => { remoteCalls := 1, localCalls := 1, outcome := Except.error e })
  | FetchOutcome.resp false _ =>
    (match composeLocal load text color with
     | Except.ok cv => { remoteCalls := 1, localCalls := 1, outcome := Except.ok (HeroSet.localRaster cv) }
     | Except.error _ =>
       match composeLocal load text color with
       | Except.ok cv => { remoteCalls := 1, localCalls := 2, outcome := Except.ok (HeroSet.localRaster cv) }
       | Except.error e => { remoteCalls := 1, localCalls := 2, outcome := Except.error e })
  | FetchOutcome.throw =>
    (match composeLocal load text color with
     | Except.ok cv => { remoteCalls := 1, localCalls := 1, outcome := Except.ok (HeroSet.localRaster cv) }
     | Except.error e => { remoteCalls := 1, localCalls := 1, outcome := Except.error e })

/-- Structural validity of an Asset value: non-empty title, non-empty
selling points, non-empty video script. -/
def validAsset (j : Json) : Bool :=
  (match j.jget "title" with
   | some (Json.str s) => !s.data.isEmpty
   | _ => false) &&
  (match j.jget "selling_points" with
   | some (Json.arr xs) => !xs.isEmpty
   | _ => false) &&
  (match j.jget "video_script" with
   | some (Json.arr xs) => !xs.isEmpty
   | _ => false)

/-- The non-blank string content the caller of `tryDoubao` accepts, if
any. -/
def usableContent (data : Json) : Option String :=
  match coalesceContent data with
  | Json.str s => if (jsTrim s).data.isEmpty then none else some s
  | _ => none

/-- Degraded provider behaviours: unconfigured, thrown transport error,
non-success status, unreadable body, or a body without usable non-blank
string completion content. -/
def ProviderFailing (env : Env) (o : FetchOutcome) : Prop :=
  falsy env.apiKey = true ∨ falsy env.endpoint = true ∨ o = FetchOutcome.throw ∨
    (∃ b, o = FetchOutcome.resp false b) ∨ o = FetchOutcome.resp true none ∨
    (∃ data, o = FetchOutcome.resp true (some data) ∧ usableContent data = none)

/-- First-index specification: position `i` holds the character and no
earlier position does. -/
def FirstIdxOf (cs : List Char) (t : Char) (i : Nat) : Prop :=
  cs.get? i = some t ∧ ∀ k, k < i → cs.get? k ≠ some t

/-- Last-index specification: position `j` holds the character and no
later position does. -/
def LastIdxOf (cs : List Char) (t : Char) (j : Nat) : Prop :=
  cs.get? j = some t ∧ ∀ k, j < k → cs.get? k ≠ some t

theorem hexVal_hexDigit : ∀ n, n < 16 → hexVal (hexDigit n) = some n := by decide

theorem hexQuad_encode (c : Char) (tail : List Char) (hc : c.toNat < 32) :
    hexQuad ('0' :: '0' :: hexDigit (c.toNat / 16) :: hexDigit (c.toNat % 16) :: tail)
      = some (c, tail) := by
  show (match hexVal '0', hexVal '0', hexVal (hexDigit (c.toNat / 16)),
            hexVal (hexDigit (c.toNat % 16)) with
        | some x1, some x2, some x3, some x4 =>
          some (Char.ofNat (((x1 * 16 + x2) * 16 + x3) * 16 + x4), tail)
        | _, _, _, _ => none)
      = some (c, tail)
  rw [hexVal_hexDigit _ (by omega), hexVal_hexDigit _ (by omega)]
  show some (Char.ofNat (((0 * 16 + 0) * 16 + c.toNat / 16) * 16 + c.toNat % 16), tail)
      = some (c, tail)
  have harith : ((0 * 16 + 0) * 16 + c.toNat / 16) * 16 + c.toNat % 16 = c.toNat := by omega
  rw [harith, Char.ofNat_toNat]

theorem parseStringBody_escAcc (cs : List Char) : ∀ (g : Nat) (rest : List Char),
    cs.length < g → parseStringBody g (escAcc cs ('"' :: rest)) = some (cs, rest) := by
  induction cs with
  | nil =>
    intro g rest hg
    obtain ⟨g', rfl⟩ : ∃ g', g = g' + 1 := ⟨g - 1, by omega⟩
    rw [show escAcc [] ('"' :: rest) = '"' :: rest from rfl]
    rfl
  | cons c cs ih =>
    intro g rest hg
    obtain ⟨g', rfl⟩ : ∃ g', g = g' + 1 := ⟨g - 1, by omega⟩
    have hcs : cs.length < g' := by simp at hg; omega
    rw [show escAcc (c :: cs) ('"' :: rest) = escapeChar c ++ escAcc cs ('"' :: rest) from rfl]
    by_cases h1 : c = '"'
    · subst h1
      rw [show escapeChar '"' = ['\\', '"'] from rfl]
      simp only [List.cons_append, List.nil_append]
      rw [parseStringBody]
      show (parseStringBody g' (escAcc cs ('"' :: rest))).map (fun p => ('"' :: p.1, p.2))
          = some ('"' :: cs, rest)
      rw [ih g' rest hcs]
      rfl
    by_cases h2 : c = '\\'
    · subst h2
      rw [show escapeChar '\\' = ['\\', '\\'] from rfl]
      simp only [List.cons_append, List.nil_append]
      rw [parseStringBody]
      show (parseStringBody g' (escAcc cs ('"' :: rest))).map (fun p => ('\\' :: p.1, p.2))
          = some ('\\' :: cs, rest)
      rw [ih g' rest hcs]
      rfl
    by_cases h3 : c = '\n'
    · subst h3
      rw [show escapeChar '\n' = ['\\', 'n'] from rfl]
      simp only [List.cons_append, List.nil_append]
      rw [parseStringBody]
      show (parseStringBody g' (escAcc cs ('"' :: rest))).map (fun p => ('\n' :: p.1, p.2))
          = some ('\n' :: cs, rest)
      rw [ih g' rest hcs]
      rfl
    by_cases h4 : c = '\r'
    · subst h4
      rw [show escapeChar '\r' = ['\\', 'r'] from rfl]
      simp only [List.cons_append, List.nil_append]
      rw [parseStringBody]
      show (parseStringBody g' (escAcc cs ('"' :: rest))).map (fun p => ('\r' :: p.1, p.2))
          = some ('\r' :: cs, rest)
      rw [ih g' rest hcs]
      rfl
    by_cases h5 : c = '\t'
    · subst h5
      rw [show escapeChar '\t' = ['\\', 't'] from rfl]
      simp only [List.cons_append, List.nil_append]
      rw [parseStringBody]
      show (parseStringBody g' (escAcc cs ('"' :: rest))).map (fun p => ('\t' :: p.1, p.2))
          = some ('\t' :: cs, rest)
      rw [ih g' rest hcs]
      rfl
    by_cases h6 : c = Char.ofNat 8
    · subst h6
      rw [show escapeChar (Char.ofNat 8) = ['\\', 'b'] from rfl]
      simp only [List.cons_append, List.nil_append]
      rw [parseStringBody]
      show (parseStringBody g' (escAcc cs ('"' :: rest))).map
            (fun p => (Char.ofNat 8 :: p.1, p.2))
          = some (Char.ofNat 8 :: cs, rest)
      rw [ih g' rest hcs]
      rfl
    by_cases h7 : c = Char.ofNat 12
    · subst h7
      rw [show escapeChar (Char.ofNat 12) = ['\\', 'f'] from rfl]
      simp only [List.cons_append, List.nil_append]
      rw [parseStringBody]
      show (parseStringBody g' (escAcc cs ('"' :: rest))).map
            (fun p => (Char.ofNat 12 :: p.1, p.2))
          = some (Char.ofNat 12 :: cs, rest)
      rw [ih g' rest hcs]
      rfl
    by_cases h8 : c.toNat < 32
    · have he : escapeChar c =
          ['\\', 'u', '0', '0', hexDigit (c.toNat / 16), hexDigit (c.toNat % 16)] := by
        simp [escapeChar, h1, h2, h3, h4, h5, h6, h7, h8]
      rw [he]
      simp only [List.cons_append, List.nil_append]
      rw [parseStringBody]
      show (match hexQuad ('0' :: '0' :: hexDigit (c.toNat / 16) :: hexDigit (c.toNat % 16) ::
                escAcc cs ('"' :: rest)) with
            | some (ch, r3) => (parseStringBody g' r3).map (fun p => (ch :: p.1, p.2))
            | none => none)
          = some (c :: cs, rest)
      rw [hexQuad_encode c _ h8]
      show (parseStringBody g' (escAcc cs ('"' :: rest))).map (fun p => (c :: p.1, p.2))
          = some (c :: cs, rest)
      rw [ih g' rest hcs]
      rfl
    · have he : escapeChar c = [c] := by
        simp [escapeChar, h1, h2, h3, h4, h5, h6, h7, h8]
      rw [he]
      simp only [List.cons_append, List.nil_append]
      rw [parseStringBody.eq_def]
      show (if c = '"' then some ([], escAcc cs ('"' :: rest))
            else if c = '\\' then
              (match escAcc cs ('"' :: rest) with
               | [] => none
               | e :: r2 =>
                 if e = 'u' then
                   match hexQuad r2 with
                   | some (ch, r3) => (parseStringBody g' r3).map (fun p => (ch :: p.1, p.2))
                   | none => none
                 else
                   match simpleUnescape e with
                   | some ch => (parseStringBody g' r2).map (fun p => (ch :: p.1, p.2))
                   | none => none)
            else if 32 ≤ c.toNat then
              (parseStringBody g' (escAcc cs ('"' :: rest))).map (fun p => (c :: p.1, p.2))
            else none)
          = some (c :: cs, rest)
      rw [if_neg h1, if_neg h2, if_pos (Nat.not_lt.mp h8)]
      rw [ih g' rest hcs]
      rfl

set_option maxHeartbeats 1000000 in
/-- Parsing succeeds with one more unit of fuel, with the same result. -/
theorem parseJ_mono : ∀ (f : Nat) (m : PMode) (cs : List Char) (r : Json × List Char),
    parseJ f m cs = some r → parseJ (f + 1) m cs = some r := by
  intro f m cs
  induction f, m, cs using parseJ.induct <;> intro r h
  case case1 => simp [parseJ] at h
  all_goals rw [parseJ] at h ⊢
  all_goals simp_all
  case case6 ih => exact ih r.1 r.2 rfl
  case case9 ih => exact ih r.1 r.2 rfl
  case case16 ih2 ih1 =>
    obtain ⟨a, b, h1, h2⟩ := h
    exact ⟨a, b, ih1 a b h1, h2⟩
  case case23 ih2 ih1 =>
    obtain ⟨a, b, h1, h2⟩ := h
    exact ⟨a, b, ih1 a b h1, h2⟩

/-- Parsing succeeds with any larger amount of fuel. -/
theorem parseJ_mono_le (f g : Nat) (h : f ≤ g) (m : PMode) (cs : List Char)
    (r : Json × List Char) (hp : parseJ f m cs = some r) : parseJ g m cs = some r := by
  induction g, h using Nat.le_induction with
  | base => exact hp
  | succ g hg ih => exact parseJ_mono g m cs r ih

/-- Escaping onto an accumulator is escaping followed by appending. -/
theorem escAcc_append (cs acc : List Char) : escAcc cs acc = escAcc cs [] ++ acc := by
  induction cs with
  | nil => rfl
  | cons c t ih =>
    show escapeChar c ++ escAcc t acc = (escapeChar c ++ escAcc t []) ++ acc
    rw [ih, List.append_assoc]

theorem le_length_escAcc (cs acc : List Char) : cs.length ≤ (escAcc cs acc).length := by
  induction cs with
  | nil => simp [escAcc]
  | cons c t ih =>
    show (c :: t).length ≤ (escapeChar c ++ escAcc t acc).length
    rw [List.length_append]
    have h1 : 1 ≤ (escapeChar c).length := by
      unfold escapeChar; split_ifs <;> simp
    simp only [List.length_cons]
    omega

set_option maxRecDepth 10000

/-- The serialized mock after the title value's closing quote. -/
def mockTail : List Char :=
  (",\"selling_points\":[\"品质保障\",\"便捷实用\",\"性价比高\",\"口碑推荐\"],\"atmosphere\":\"焕新季\",\"video_script\":[\x7b\"s\":0,\"v\":\"开场特写\"\x7d,\x7b\"s\":2,\"v\":\"使用场景展示\"\x7d,\x7b\"s\":6,\"v\":\"卖点字幕与下单引导\"\x7d]\x7d").data

/-- The serialized mock before the title value. -/
def mockPre : List Char := ("\x7b\"title\":\"").data

theorem serializeJson_mock (p : String) :
    serializeJson (mockAssetJson p) = mockPre ++ escAcc (mockTitle p).data ('"' :: mockTail) := rfl

theorem parseJ_mock (p : String) :
    parseJ (13 + 1) PMode.value (serializeJson (mockAssetJson p))
      = some (mockAssetJson p, []) := by
  rw [serializeJson_mock, parseJ]
  show parseJ 13 PMode.members
      (("\"title\":\"").data ++ escAcc (mockTitle p).data ('"' :: mockTail))
      = some (mockAssetJson p, [])
  rw [show (13 : Nat) = 12 + 1 from rfl, parseJ]
  have hkey : parseStringBody
      (((("title\":\"").data ++ escAcc (mockTitle p).data ('"' :: mockTail)).length) + 1)
      (("title\":\"").data ++ escAcc (mockTitle p).data ('"' :: mockTail))
      = some (("title").data, ':' :: '"' :: escAcc (mockTitle p).data ('"' :: mockTail)) :=
    parseStringBody_escAcc ("title").data _ _
      (by simp [List.length_append])
  show (match parseStringBody
          (((("title\":\"").data ++ escAcc (mockTitle p).data ('"' :: mockTail)).length) + 1)
          (("title\":\"").data ++ escAcc (mockTitle p).data ('"' :: mockTail)) with
        | some (k, r2) =>
          (match skipWs r2 with
           | ':' :: r3 =>
             (match parseJ 12 PMode.value r3 with
              | some (v, r4) =>
                (match skipWs r4 with
                 | [] => none
                 | c5 :: r5 =>
                   if c5 = ',' then
                     Option.map (fun q => (consMember { data := k } v q.1, q.2))
                       (parseJ 12 PMode.members r5)
                   else if c5 = rbrace then some (Json.obj [({ data := k }, v)], r5)
                   else none)
              | none => none)
           | _ => none)
        | none => none)
      = some (mockAssetJson p, [])
  rw [hkey]
  show (match (parseStringBody ((escAcc (mockTitle p).data ('"' :: mockTail)).length + 1)
                (escAcc (mockTitle p).data ('"' :: mockTail))).map
          (fun q => (Json.str { data := q.1 }, q.2)) with
        | some (v, r4) =>
          (match skipWs r4 with
           | [] => none
           | c5 :: r5 =>
             if c5 = ',' then
               Option.map (fun q => (consMember { data := ("title").data } v q.1, q.2))
                 (parseJ 12 PMode.members r5)
             else if c5 = rbrace then some (Json.obj [({ data := ("title").data }, v)], r5)
             else none)
        | none => none)
      = some (mockAssetJson p, [])
  rw [parseStringBody_escAcc (mockTitle p).data _ mockTail
    (Nat.lt_succ_of_le (le_length_escAcc _ _))]
  rfl

theorem indexOfChar_cons_self (t : Char) (w : List Char) : indexOfChar (t :: w) t = some 0 := by
  rw [indexOfChar, if_pos rfl]

theorem jsonParse_mock (p : String) : jsonParse (mockGenerate p) = some (mockAssetJson p) := by
  have hlift : parseJ ((serializeJson (mockAssetJson p)).length + 20) PMode.value
      (serializeJson (mockAssetJson p)) = some (mockAssetJson p, []) :=
    parseJ_mono_le _ _ (by omega) _ _ _ (parseJ_mock p)
  show (match parseJ ((serializeJson (mockAssetJson p)).length + 20) PMode.value
          (serializeJson (mockAssetJson p)) with
        | some (j, rest) => if (skipWs rest).isEmpty then some j else none
        | none => none)
      = some (mockAssetJson p)
  rw [hlift]
  rfl

/-- The serialized mock tail without its final closing brace. -/
def mockTailInit : List Char :=
  (",\"selling_points\":[\"品质保障\",\"便捷实用\",\"性价比高\",\"口碑推荐\"],\"atmosphere\":\"焕新季\",\"video_script\":[\x7b\"s\":0,\"v\":\"开场特写\"\x7d,\x7b\"s\":2,\"v\":\"使用场景展示\"\x7d,\x7b\"s\":6,\"v\":\"卖点字幕与下单引导\"\x7d]").data

theorem safeParse_mock (p : String) : safeParseJson (mockGenerate p) = some (mockAssetJson p) := by
  have hfirst : indexOfChar (serializeJson (mockAssetJson p)) lbrace = some 0 := by
    rw [serializeJson_mock]
    exact indexOfChar_cons_self lbrace _
  have hidx : indexOfChar (serializeJson (mockAssetJson p)).reverse rbrace = some 0 := by
    rw [serializeJson_mock, escAcc_append,
      show ('"' :: mockTail) = ('"' :: mockTailInit) ++ [rbrace] from rfl]
    rw [show mockPre ++ (escAcc (mockTitle p).data [] ++ (('"' :: mockTailInit) ++ [rbrace]))
        = (mockPre ++ (escAcc (mockTitle p).data [] ++ ('"' :: mockTailInit))) ++ [rbrace] by
      simp [List.append_assoc]]
    rw [List.reverse_append]
    rw [show ([rbrace] : List Char).reverse = [rbrace] from rfl]
    rw [List.singleton_append]
    exact indexOfChar_cons_self rbrace _
  have hlast : lastIndexOfChar (serializeJson (mockAssetJson p)) rbrace
      = some ((serializeJson (mockAssetJson p)).length - 1) := by
    rw [lastIndexOfChar, hidx]
    simp
  have hlen : 2 ≤ (serializeJson (mockAssetJson p)).length := by
    rw [serializeJson_mock]
    rw [List.length_append]
    have h10 : mockPre.length = 10 := rfl
    omega
  show (match indexOfChar (serializeJson (mockAssetJson p)) lbrace,
          lastIndexOfChar (serializeJson (mockAssetJson p)) rbrace with
        | some first, some last =>
          if first < last then
            jsonParse (String.mk (((serializeJson (mockAssetJson p)).drop first).take
              (last + 1 - first)))
          else jsonParse (mockGenerate p)
        | _, _ => jsonParse (mockGenerate p))
      = some (mockAssetJson p)
  rw [hfirst, hlast]
  show (if 0 < (serializeJson (mockAssetJson p)).length - 1 then
          jsonParse (String.mk (((serializeJson (mockAssetJson p)).drop 0).take
            ((serializeJson (mockAssetJson p)).length - 1 + 1 - 0)))
        else jsonParse (mockGenerate p))
      = some (mockAssetJson p)
  rw [if_pos (by omega)]
  rw [List.drop_zero]
  rw [show (serializeJson (mockAssetJson p)).length - 1 + 1 - 0
      = (serializeJson (mockAssetJson p)).length by omega]
  rw [List.take_length]
  exact jsonParse_mock p

theorem tryDoubao_throw (env : Env) (msgs : List ChatMessage) (img m : Option String) :
    tryDoubao env FetchOutcome.throw msgs img m = none := by
  unfold tryDoubao tryDoubaoRequest
  split <;> rfl

theorem tryDoubao_badStatus (env : Env) (b : Option Json) (msgs : List ChatMessage)
    (img m : Option String) :
    tryDoubao env (FetchOutcome.resp false b) msgs img m = none := by
  unfold tryDoubao tryDoubaoRequest
  split <;> rfl

theorem tryDoubao_badBody (env : Env) (msgs : List ChatMessage) (img m : Option String) :
    tryDoubao env (FetchOutcome.resp true none) msgs img m = none := by
  unfold tryDoubao tryDoubaoRequest
  split <;> rfl

theorem volcano_mock (env : Env) (o : FetchOutcome) (msgs : List ChatMessage)
    (img m : Option String) (h : ProviderFailing env o) :
    volcanoGenerate env o msgs img m = mockGenerate (lastUserContent msgs) := by
  rcases h with h | h | h | ⟨b, h⟩ | h | ⟨data, h, hu⟩
  · simp [volcanoGenerate, tryDoubao, tryDoubaoRequest, h]
  · simp [volcanoGenerate, tryDoubao, tryDoubaoRequest, h]
  · subst h; rw [volcanoGenerate, tryDoubao_throw]
  · subst h; rw [volcanoGenerate, tryDoubao_badStatus]
  · subst h; rw [volcanoGenerate, tryDoubao_badBody]
  · subst h
    by_cases hc : (falsy env.apiKey || falsy env.endpoint) = true
    · simp [volcanoGenerate, tryDoubao, tryDoubaoRequest, hc]
    · rw [volcanoGenerate]
      rw [show tryDoubao env (FetchOutcome.resp true (some data)) msgs img m
          = some (coalesceContent data) by
        unfold tryDoubao tryDoubaoRequest
        rw [if_neg hc]
        rfl]
      unfold usableContent at hu
      rcases hcc : coalesceContent data with _ | _ | _ | s | _ | _ <;>
        rw [hcc] at hu <;> simp_all

theorem lastUserContent_full (desc : String) (history : List ChatMessage) :
    lastUserContent (fullMessages desc history) = desc := by
  unfold lastUserContent fullMessages
  have hrev : (sysMsg :: history ++ [({ role := Role.user, content := desc } : ChatMessage)]).reverse
      = ({ role := Role.user, content := desc } : ChatMessage) :: (history.reverse ++ [sysMsg]) := by
    simp
  rw [hrev]
  rw [List.find?_cons_of_pos _ (by rfl)]

theorem lastUserContent_retry (desc : String) :
    lastUserContent (retryMessages desc) = desc := rfl

theorem validAsset_mock (p : String) : validAsset (mockAssetJson p) = true := by
  have ht : (mockTitle p).data.isEmpty = false := by
    simp only [mockTitle]
    split
    · rfl
    · next h => simpa using h
  simp [validAsset, mockAssetJson, Json.jget, ht]

theorem mockTitle_take (p : String) (h : p ≠ "") : mockTitle p = String.mk (p.data.take 24) := by
  have hd : p.data ≠ [] := fun hl => h (String.ext (show p.data = "".data from hl))
  simp only [mockTitle]
  rcases hdd : p.data with _ | ⟨c, t⟩
  · exact absurd hdd hd
  · simp

theorem mockTitle_empty : mockTitle "" = "优选好物" := rfl

theorem indexOfChar_iff (t : Char) : ∀ (cs : List Char) (i : Nat),
    indexOfChar cs t = some i ↔
      (cs.get? i = some t ∧ ∀ k, k < i → cs.get? k ≠ some t) := by
  intro cs
  induction cs with
  | nil => intro i; simp [indexOfChar]
  | cons c cs ih =>
    intro i
    by_cases hc : c = t
    · subst hc
      rw [indexOfChar, if_pos rfl]
      constructor
      · intro h
        obtain rfl : i = 0 := by simpa using h.symm
        exact ⟨rfl, fun k hk => absurd hk (by omega)⟩
      · intro ⟨h1, h2⟩
        rcases i with _ | j
        · rfl
        · exact absurd rfl (h2 0 (by omega))
    · rw [indexOfChar, if_neg hc]
      rcases i with _ | j
      · constructor
        · intro h
          simp at h
        · intro ⟨h1, _⟩
          simp at h1
          exact absurd h1 hc
      · constructor
        · intro h
          have hj : indexOfChar cs t = some j := by
            rcases hx : indexOfChar cs t with _ | v
            · rw [hx] at h; simp at h
            · rw [hx] at h
              simp at h
              rw [h]
          have := (ih j).mp hj
          refine ⟨by simpa using this.1, ?_⟩
          intro k hk
          rcases k with _ | k'
          · simpa using hc
          · simpa using this.2 k' (by omega)
        · intro ⟨h1, h2⟩
          have hj : cs.get? j = some t := by simpa using h1
          have hall : ∀ k, k < j → cs.get? k ≠ some t := by
            intro k hk
            simpa using h2 (k + 1) (by omega)
          rw [(ih j).mpr ⟨hj, hall⟩]
          rfl

theorem lastIndexOfChar_iff (t : Char) (cs : List Char) (j : Nat) :
    lastIndexOfChar cs t = some j ↔
      (cs.get? j = some t ∧ ∀ k, j < k → cs.get? k ≠ some t) := by
  unfold lastIndexOfChar
  constructor
  · intro h
    rcases hx : indexOfChar cs.reverse t with _ | i
    · rw [hx] at h; simp at h
    · rw [hx] at h
      simp at h
      have hi := (indexOfChar_iff t cs.reverse i).mp hx
      have hilen : i < cs.length := by
        have := (List.get?_eq_some.mp hi.1).choose
        simpa using this
      constructor
      · rw [← h, ← List.get?_reverse hilen]
        exact hi.1
      · intro k hk hcontra
        have hklen : k < cs.length := (List.get?_eq_some.mp hcontra).choose
        have hk' : cs.length - 1 - k < i := by omega
        have : cs.reverse.get? (cs.length - 1 - k) = some t := by
          rw [List.get?_reverse (by omega)]
          rw [show cs.length - 1 - (cs.length - 1 - k) = k by omega]
          exact hcontra
        exact hi.2 _ hk' this
  · intro ⟨h1, h2⟩
    have hjlen : j < cs.length := (List.get?_eq_some.mp h1).choose
    have hrevi : cs.reverse.get? (cs.length - 1 - j) = some t := by
      rw [List.get?_reverse (by omega)]
      rw [show cs.length - 1 - (cs.length - 1 - j) = j by omega]
      exact h1
    have hall : ∀ k, k < cs.length - 1 - j → cs.reverse.get? k ≠ some t := by
      intro k hk hcontra
      have hklen : k < cs.length := by
        have := (List.get?_eq_some.mp hcontra).choose
        simpa using this
      rw [List.get?_reverse hklen] at hcontra
      exact h2 (cs.length - 1 - k) (by omega) hcontra
    rw [(indexOfChar_iff t cs.reverse (cs.length - 1 - j)).mpr ⟨hrevi, hall⟩]
    simp
    omega

theorem mapMessagesAux_get? (len : Nat) (img : Option String) :
    ∀ (msgs : List ChatMessage) (i k : Nat),
      (mapMessagesAux len img i msgs).get? k = (msgs.get? k).map (mapOne len img (i + k)) := by
  intro msgs
  induction msgs with
  | nil => intro i k; simp [mapMessagesAux]
  | cons m rest ih =>
    intro i k
    rcases k with _ | k'
    · simp [mapMessagesAux]
    · simp only [mapMessagesAux, List.get?_cons_succ]
      rw [ih (i + 1) k']
      rw [show i + 1 + k' = i + (k' + 1) by omega]

theorem mapMessages_get? (msgs : List ChatMessage) (img : Option String) (k : Nat) :
    (mapMessages msgs img).get? k = (msgs.get? k).map (mapOne msgs.length img k) := by
  have := mapMessagesAux_get? msgs.length img msgs 0 k
  simpa using this

theorem mapOne_not_last (len : Nat) (img : Option String) (k : Nat) (m : ChatMessage)
    (hk : k ≠ len - 1) :
    mapOne len img k m = { role := m.role, content := MappedContent.textOnly m.content } := by
  rcases img with _ | u
  · rfl
  · simp [mapOne, hk]

theorem mapOne_not_user (len : Nat) (img : Option String) (k : Nat) (m : ChatMessage)
    (hm : m.role ≠ Role.user) :
    mapOne len img k m = { role := m.role, content := MappedContent.textOnly m.content } := by
  rcases img with _ | u
  · rfl
  · have hb : (m.role == Role.user) = false := by
      rcases hr : m.role with _ | _ | _
      · rfl
      · exact absurd hr hm
      · rfl
    simp [mapOne, hb]

/-- Provider configuration with no API key and no endpoint. -/
def envUnconfigured : Env :=
  { apiKey := none, endpoint := none, model := none, imageEndpoint := none, imageModel := none }

/-- A fully configured provider. -/
def envConfigured : Env :=
  { apiKey := some "k", endpoint := some "https://ark.example/api/v3/chat/completions"
    model := none, imageEndpoint := none, imageModel := none }

/-- A success response whose completion content is the plain text
`hello` — no JSON anywhere in it. -/
def helloBody : Json :=
  Json.obj [("choices", Json.arr
    [Json.obj [("message", Json.obj [("content", Json.str "hello")])]])]

/-- C1 counterexample: with the provider configured and returning the
arbitrary text `hello` on every call, `generateAssets` on a non-empty
description returns the absent result (`null`), so the claim's
"returning arbitrary text" case fails. -/
theorem generateAssets_arbitraryText_null :
    (generateAssets
        (genFromOutcomes envConfigured (fun _ => FetchOutcome.resp true (some helloBody)))
        "优质蓝牙耳机带降噪功能" [] none).1 = none
      ∧ ("优质蓝牙耳机带降噪功能" : String) ≠ "" := by
  constructor
  · rfl
  · decide

/-- C1 (amended): whenever the first client call's provider behaviour is
degraded — unconfigured, thrown transport error, non-success status,
unreadable body, or no usable non-blank string completion content —
`generateAssets` returns the deterministic mock Asset parsed back from
`mockGenerate`, after exactly one client call, and that Asset is
structurally valid (non-empty title, selling points and video script). -/
theorem generateAssets_degraded_mock (env : Env) (os : Nat → FetchOutcome) (desc : String)
    (history : List ChatMessage) (img : Option String)
    (hdesc : desc ≠ "") (hfail : ProviderFailing env (os 0)) :
    generateAssets (genFromOutcomes env os) desc history img
        = (some (mockAssetJson desc), [fullMessages desc history])
      ∧ validAsset (mockAssetJson desc) = true := by
  refine ⟨?_, validAsset_mock desc⟩
  have hg : genFromOutcomes env os 0 (fullMessages desc history) img = mockGenerate desc := by
    show volcanoGenerate env (os 0) (fullMessages desc history) img none = mockGenerate desc
    rw [volcano_mock _ _ _ _ _ hfail, lastUserContent_full]
  show (if jsTruthyOpt (safeParseJson (genFromOutcomes env os 0 (fullMessages desc history) img))
            = true then
          (safeParseJson (genFromOutcomes env os 0 (fullMessages desc history) img),
            [fullMessages desc history])
        else
          (safeParseJson (genFromOutcomes env os 1 (retryMessages desc) img),
            [fullMessages desc history, retryMessages desc]))
      = (some (mockAssetJson desc), [fullMessages desc history])
  rw [hg, safeParse_mock]
  rfl

/-- C1 witness: the amended theorem at a concrete unconfigured provider,
non-empty description and one history turn. -/
theorem generateAssets_degraded_mock_witness :
    ("无线耳机" : String) ≠ ""
      ∧ ProviderFailing envUnconfigured ((fun _ => FetchOutcome.throw) 0)
      ∧ generateAssets (genFromOutcomes envUnconfigured (fun _ => FetchOutcome.throw))
          "无线耳机" [{ role := Role.user, content := "hi" }] none
          = (some (mockAssetJson "无线耳机"),
             [fullMessages "无线耳机" [{ role := Role.user, content := "hi" }]])
      ∧ validAsset (mockAssetJson "无线耳机") = true := by
  refine ⟨by decide, Or.inl rfl, ?_⟩
  exact generateAssets_degraded_mock envUnconfigured (fun _ => FetchOutcome.throw)
    "无线耳机" [{ role := Role.user, content := "hi" }] none (by decide) (Or.inl rfl)

/-- C2: when the first attempt's extraction succeeds with well-formed
matching JSON — an object value, the only shape the contract's JSON can
take, and JavaScript-truthy, so it passes the `if (data)` gate —
`generateAssets` returns exactly that parsed object, and only the one
full-context client call was made; the minimal-context retry is not
issued.  (A falsy parse result such as the text `0` is well-formed JSON
but not matching, and does trigger the retry.) -/
theorem generateAssets_first_success (gen : Nat → List ChatMessage → Option String → String)
    (desc : String) (history : List ChatMessage) (img : Option String)
    (ms : List (String × Json))
    (h : safeParseJson (gen 0 (fullMessages desc history) img) = some (Json.obj ms)) :
    generateAssets gen desc history img
      = (some (Json.obj ms), [fullMessages desc history]) := by
  show (if jsTruthyOpt (safeParseJson (gen 0 (fullMessages desc history) img)) = true then
          (safeParseJson (gen 0 (fullMessages desc history) img), [fullMessages desc history])
        else
          (safeParseJson (gen 1 (retryMessages desc) img),
            [fullMessages desc history, retryMessages desc]))
      = (some (Json.obj ms), [fullMessages desc history])
  rw [h]
  rfl

/-- C2 witness: a provider returning a well-formed JSON object on the
first call. -/
theorem generateAssets_first_success_witness :
    safeParseJson ((fun _ _ _ => "\x7b\"title\":\"T\"\x7d")
        (0 : Nat) (fullMessages "测试" []) (none : Option String))
        = some (Json.obj [("title", Json.str "T")])
      ∧ generateAssets (fun _ _ _ => "\x7b\"title\":\"T\"\x7d") "测试" [] none
          = (some (Json.obj [("title", Json.str "T")]), [fullMessages "测试" []]) := by
  refine ⟨rfl, ?_⟩
  exact generateAssets_first_success _ "测试" [] none _ rfl

/-- C3: when the first attempt's extraction fails and the second
succeeds, `generateAssets` returns the second attempt's parsed result,
and the second client call's message list is exactly the two turns
system instruction then current user description — the history absent. -/
theorem generateAssets_retry_minimal (gen : Nat → List ChatMessage → Option String → String)
    (desc : String) (history : List ChatMessage) (img : Option String) (d : Json)
    (h1 : safeParseJson (gen 0 (fullMessages desc history) img) = none)
    (h2 : safeParseJson (gen 1 [sysMsg, { role := Role.user, content := desc }] img) = some d) :
    generateAssets gen desc history img
      = (some d, [fullMessages desc history,
                  [sysMsg, { role := Role.user, content := desc }]]) := by
  show (if jsTruthyOpt (safeParseJson (gen 0 (fullMessages desc history) img)) = true then
          (safeParseJson (gen 0 (fullMessages desc history) img), [fullMessages desc history])
        else
          (safeParseJson (gen 1 (retryMessages desc) img),
            [fullMessages desc history, retryMessages desc]))
      = (some d, [fullMessages desc history, [sysMsg, { role := Role.user, content := desc }]])
  rw [h1]
  show (safeParseJson (gen 1 [sysMsg, { role := Role.user, content := desc }] img),
        [fullMessages desc history, [sysMsg, { role := Role.user, content := desc }]])
      = (some d, [fullMessages desc history, [sysMsg, { role := Role.user, content := desc }]])
  rw [h2]

/-- C3 witness: first call yields non-JSON text, second call yields a
well-formed object. -/
theorem generateAssets_retry_minimal_witness :
    safeParseJson ((fun n _ _ => if n = 0 then "no json here" else "\x7b\"title\":\"T\"\x7d")
        (0 : Nat) (fullMessages "测试" [{ role := Role.assistant, content := "旧回复" }])
        (none : Option String)) = none
      ∧ safeParseJson ((fun n _ _ => if n = 0 then "no json here" else "\x7b\"title\":\"T\"\x7d")
          (1 : Nat) [sysMsg, { role := Role.user, content := "测试" }] (none : Option String))
          = some (Json.obj [("title", Json.str "T")])
      ∧ generateAssets (fun n _ _ => if n = 0 then "no json here" else "\x7b\"title\":\"T\"\x7d")
          "测试" [{ role := Role.assistant, content := "旧回复" }] none
          = (some (Json.obj [("title", Json.str "T")]),
             [fullMessages "测试" [{ role := Role.assistant, content := "旧回复" }],
              [sysMsg, { role := Role.user, content := "测试" }]]) := by
  refine ⟨rfl, rfl, ?_⟩
  exact generateAssets_retry_minimal _ "测试" _ none _ rfl rfl

/-- C4: with no provider configuration, `generateAssets` on the concrete
description returns the mock Asset — title the description unchanged,
the fixed 4-item selling-point list, the fixed atmosphere tag, and the
fixed 3 segments at seconds 0, 2 and 6; in general the mock title is the
first 24 characters of the description, and for the empty description it
is the fixed default phrase. -/
theorem mockAsset_shape :
    generateAssets (genFromOutcomes envUnconfigured (fun _ => FetchOutcome.throw))
        "优质蓝牙耳机带降噪功能" [] none
      = (some (Json.obj
          [ ("title", Json.str "优质蓝牙耳机带降噪功能")
          , ("selling_points", Json.arr
              [Json.str "品质保障", Json.str "便捷实用", Json.str "性价比高", Json.str "口碑推荐"])
          , ("atmosphere", Json.str "焕新季")
          , ("video_script", Json.arr
              [ Json.obj [("s", Json.num 0), ("v", Json.str "开场特写")]
              , Json.obj [("s", Json.num 2), ("v", Json.str "使用场景展示")]
              , Json.obj [("s", Json.num 6), ("v", Json.str "卖点字幕与下单引导")] ])
          ]),
         [[sysMsg, { role := Role.user, content := "优质蓝牙耳机带降噪功能" }]])
      ∧ (∀ p : String, p ≠ "" → mockTitle p = String.mk (p.data.take 24))
      ∧ mockTitle "" = "优选好物" := by
  refine ⟨rfl, mockTitle_take, mockTitle_empty⟩

/-- C4 witness: the general title rule applied at the concrete
description (11 characters, so the title is the description unchanged). -/
theorem mockAsset_shape_witness :
    ("优质蓝牙耳机带降噪功能" : String) ≠ ""
      ∧ mockTitle "优质蓝牙耳机带降噪功能"
          = String.mk (("优质蓝牙耳机带降噪功能" : String).data.take 24) := by
  refine ⟨by decide, ?_⟩
  exact mockTitle_take "优质蓝牙耳机带降噪功能" (by decide)

/-- The C5 example text: garbage around a JSON object. -/
def gText : String :=
  "garbage\x7b\"title\":\"T\",\"selling_points\":[\"a\",\"b\",\"c\"],\"atmosphere\":\"A\",\"video_script\":[\x7b\"s\":0,\"v\":\"x\"\x7d]\x7dmore garbage"

/-- The parsed value of the C5 example. -/
def gJson : Json :=
  Json.obj
    [ ("title", Json.str "T")
    , ("selling_points", Json.arr [Json.str "a", Json.str "b", Json.str "c"])
    , ("atmosphere", Json.str "A")
    , ("video_script", Json.arr [Json.obj [("s", Json.num 0), ("v", Json.str "x")]])
    ]

/-- C5: `safeParseJson` parses the slice from the first `{` to the last
`}` when the latter follows the former, and otherwise parses the whole
text; on the concrete garbage-wrapped example it returns the embedded
object, whose title is `T`. -/
theorem safeParseJson_slicing :
    (∀ (text : String) (i j : Nat), FirstIdxOf text.data lbrace i →
        LastIdxOf text.data rbrace j → i < j →
        safeParseJson text = jsonParse (String.mk ((text.data.drop i).take (j + 1 - i))))
      ∧ (∀ text : String,
          (¬ ∃ i j, FirstIdxOf text.data lbrace i ∧ LastIdxOf text.data rbrace j ∧ i < j) →
          safeParseJson text = jsonParse text)
      ∧ safeParseJson gText = some gJson
      ∧ gJson.jget "title" = some (Json.str "T") := by
  refine ⟨?_, ?_, rfl, rfl⟩
  · intro text i j hfirst hlast hij
    have h1 : indexOfChar text.data lbrace = some i := (indexOfChar_iff lbrace text.data i).mpr hfirst
    have h2 : lastIndexOfChar text.data rbrace = some j := (lastIndexOfChar_iff rbrace text.data j).mpr hlast
    show (match indexOfChar text.data lbrace, lastIndexOfChar text.data rbrace with
          | some first, some last =>
            if first < last then
              jsonParse (String.mk ((text.data.drop first).take (last + 1 - first)))
            else jsonParse text
          | _, _ => jsonParse text)
        = jsonParse (String.mk ((text.data.drop i).take (j + 1 - i)))
    rw [h1, h2]
    show (if i < j then jsonParse (String.mk ((text.data.drop i).take (j + 1 - i)))
          else jsonParse text)
        = jsonParse (String.mk ((text.data.drop i).take (j + 1 - i)))
    rw [if_pos hij]
  · intro text hno
    show (match indexOfChar text.data lbrace, lastIndexOfChar text.data rbrace with
          | some first, some last =>
            if first < last then
              jsonParse (String.mk ((text.data.drop first).take (last + 1 - first)))
            else jsonParse text
          | _, _ => jsonParse text)
        = jsonParse text
    rcases hx : indexOfChar text.data lbrace with _ | i
    · rfl
    rcases hy : lastIndexOfChar text.data rbrace with _ | j
    · rfl
    show (if i < j then jsonParse (String.mk ((text.data.drop i).take (j + 1 - i)))
          else jsonParse text)
        = jsonParse text
    rw [if_neg]
    intro hij
    exact hno ⟨i, j, (indexOfChar_iff lbrace text.data i).mp hx,
      (lastIndexOfChar_iff rbrace text.data j).mp hy, hij⟩

/-- C5 witness: the slicing conjunct applied to the concrete example,
with the first brace at index 7 and the last closing brace at index 100. -/
theorem safeParseJson_slicing_witness :
    FirstIdxOf gText.data lbrace 7
      ∧ LastIdxOf gText.data rbrace 100
      ∧ safeParseJson gText = jsonParse (String.mk ((gText.data.drop 7).take (100 + 1 - 7))) := by
  have hf : FirstIdxOf gText.data lbrace 7 := by
    constructor
    · rfl
    · decide
  have hl : LastIdxOf gText.data rbrace 100 := by
    constructor
    · rfl
    · intro k hk
      have hlen : gText.data.length = 113 := rfl
      rcases Nat.lt_or_ge k 113 with hlt | hge
      · interval_cases k <;> decide
      · rw [List.get?_eq_none.mpr (by omega)]
        simp
  exact ⟨hf, hl, safeParseJson_slicing.1 gText 7 100 hf hl (by omega)⟩

/-- A success response with an empty choices array — no completion
content anywhere. -/
def noContentBody : Json := Json.obj [("choices", Json.arr [])]

/-- C6 counterexample: with the client configured, a success response
with missing completion content makes `tryDoubao` return the empty
string — not the `null` unavailability sentinel the claim names. -/
theorem tryDoubao_missingContent_not_sentinel :
    tryDoubao envConfigured (FetchOutcome.resp true (some noContentBody))
        [{ role := Role.user, content := "hi" }] none none = some (Json.str "")
      ∧ (some (Json.str "") : Option Json) ≠ none := by
  exact ⟨rfl, by simp⟩

/-- C6 (amended): the client returns the `null` sentinel immediately and
builds no request when the API key or endpoint is not configured; a
thrown transport error, a non-success status, or an unreadable body also
yield the sentinel; missing completion content instead yields the empty
string, which the caller treats exactly like the sentinel (falling back
to the mock), never as generated text. -/
theorem tryDoubao_failure_modes :
    (∀ (env : Env) (msgs : List ChatMessage) (img m : Option String),
        (falsy env.apiKey = true ∨ falsy env.endpoint = true) →
        tryDoubaoRequest env msgs img m = none
          ∧ ∀ o, tryDoubao env o msgs img m = none)
      ∧ (∀ (env : Env) (msgs : List ChatMessage) (img m : Option String) (b : Option Json),
          tryDoubao env FetchOutcome.throw msgs img m = none
            ∧ tryDoubao env (FetchOutcome.resp false b) msgs img m = none
            ∧ tryDoubao env (FetchOutcome.resp true none) msgs img m = none)
      ∧ (∀ (env : Env) (msgs : List ChatMessage) (img m : Option String) (data : Json),
          ¬(falsy env.apiKey = true ∨ falsy env.endpoint = true) →
          contentRaw data = none →
          tryDoubao env (FetchOutcome.resp true (some data)) msgs img m = some (Json.str "")
            ∧ volcanoGenerate env (FetchOutcome.resp true (some data)) msgs img m
                = mockGenerate (lastUserContent msgs)) := by
  refine ⟨?_, ?_, ?_⟩
  · intro env msgs img m h
    have hc : (falsy env.apiKey || falsy env.endpoint) = true := by
      rcases h with h | h <;> simp [h]
    refine ⟨?_, ?_⟩
    · unfold tryDoubaoRequest
      rw [if_pos hc]
    · intro o
      unfold tryDoubao tryDoubaoRequest
      rw [if_pos hc]
  · intro env msgs img m b
    exact ⟨tryDoubao_throw env msgs img m, tryDoubao_badStatus env b msgs img m,
      tryDoubao_badBody env msgs img m⟩
  · intro env msgs img m data hcfg hraw
    have hcc : coalesceContent data = Json.str "" := by
      unfold coalesceContent
      rw [hraw]
    have hcb : (falsy env.apiKey || falsy env.endpoint) = false := by
      rcases hf1 : falsy env.apiKey <;> rcases hf2 : falsy env.endpoint <;> simp_all
    have htd : tryDoubao env (FetchOutcome.resp true (some data)) msgs img m
        = some (coalesceContent data) := by
      unfold tryDoubao tryDoubaoRequest
      rw [hcb]
      rfl
    refine ⟨by rw [htd, hcc], ?_⟩
    exact volcano_mock env _ msgs img m
      (Or.inr (Or.inr (Or.inr (Or.inr (Or.inr ⟨data, rfl, by
        unfold usableContent
        rw [hcc]
        rfl⟩)))))

/-- C6 witness: the amended theorem's unconfigured and missing-content
conjuncts at concrete inputs. -/
theorem tryDoubao_failure_modes_witness :
    (falsy envUnconfigured.apiKey = true ∨ falsy envUnconfigured.endpoint = true)
      ∧ tryDoubaoRequest envUnconfigured [] none none = none
      ∧ ¬(falsy envConfigured.apiKey = true ∨ falsy envConfigured.endpoint = true)
      ∧ contentRaw noContentBody = none
      ∧ tryDoubao envConfigured (FetchOutcome.resp true (some noContentBody)) [] none none
          = some (Json.str "") := by
  refine ⟨Or.inl rfl, ?_, ?_, rfl, ?_⟩
  · exact (tryDoubao_failure_modes.1 envUnconfigured [] none none (Or.inl rfl)).1
  · decide
  · exact (tryDoubao_failure_modes.2.2 envConfigured [] none none noContentBody
      (by decide) rfl).1

/-- Remote image-composition behaviours the claim calls failing: an
error response or a thrown transport failure. -/
def RemoteFailing (o : FetchOutcome) : Prop :=
  o = FetchOutcome.throw ∨ ∃ b, o = FetchOutcome.resp false b

/-- C7 counterexample: when the remote call returns an error response and
the source image is not loadable, the local fallback is invoked twice
(once in the else branch, once more from the catch handler), refuting the
claim's unconditional "exactly once". -/
theorem generateHero_double_local :
    (generateHero (FetchOutcome.resp false none) none "t" "#3b82f6").localCalls = 2
      ∧ (generateHero (FetchOutcome.resp false none) none "t" "#3b82f6").localCalls ≠ 1 := by
  exact ⟨rfl, by decide⟩

/-- C7 (amended): the remote composition request is issued exactly once
under every behaviour; for a failing remote call and a loadable source
image the local fallback runs exactly once and the result is the
non-null raster payload; only in the corner where the remote returns an
error response and the source image is unloadable does the catch handler
invoke the fallback a second time. -/
theorem generateHero_ladder :
    (∀ (o : FetchOutcome) (load : Option ImgDims) (t c : String),
        (generateHero o load t c).remoteCalls = 1)
      ∧ (∀ (o : FetchOutcome) (d : ImgDims) (t c : String), RemoteFailing o →
          ∃ cv, generateHero o (some d) t c
            = { remoteCalls := 1, localCalls := 1
                outcome := Except.ok (HeroSet.localRaster cv) })
      ∧ (∀ (t c : String) (b : Option Json),
          (generateHero (FetchOutcome.resp false b) none t c).localCalls = 2) := by
  refine ⟨?_, ?_, ?_⟩
  · intro o load t c
    rcases o with _ | ⟨_ | _, _ | b⟩ <;> rcases load with _ | d <;> rfl
  · intro o d t c hfail
    rcases hfail with rfl | ⟨b, rfl⟩
    · exact ⟨_, rfl⟩
    · exact ⟨_, rfl⟩
  · intro t c b
    rfl

/-- C7 witness: the amended theorem at a thrown transport failure with a
loadable 800 by 600 source image. -/
theorem generateHero_ladder_witness :
    RemoteFailing FetchOutcome.throw
      ∧ (generateHero FetchOutcome.throw (some { width := 800, height := 600 })
          "标题" "#3b82f6").remoteCalls = 1
      ∧ ∃ cv, generateHero FetchOutcome.throw (some { width := 800, height := 600 })
          "标题" "#3b82f6"
          = { remoteCalls := 1, localCalls := 1
              outcome := Except.ok (HeroSet.localRaster cv) } := by
  refine ⟨Or.inl rfl, ?_, ?_⟩
  · exact generateHero_ladder.1 FetchOutcome.throw (some { width := 800, height := 600 })
      "标题" "#3b82f6"
  · exact generateHero_ladder.2.1 FetchOutcome.throw { width := 800, height := 600 }
      "标题" "#3b82f6" (Or.inl rfl)

/-- C8: endpoint resolution of the image client — a configured dedicated
endpoint is used as is, otherwise the text endpoint is rewritten by the
fixed substitution when it contains the chat-completions path, else the
hardcoded default is used; and every failure (missing key, transport
throw, non-success status, unreadable body, or payload without a string
URL at the two tolerated locations) yields the `null` sentinel. -/
theorem generateAtmosphereImage_spec :
    (∀ env : Env, falsy env.imageEndpoint = false →
        resolveImageEndpoint env = env.imageEndpoint.getD "")
      ∧ (∀ env : Env, falsy env.imageEndpoint = true →
          containsStr (jsOrD env.endpoint "") "/chat/completions" = true →
          resolveImageEndpoint env
            = replaceFirst (jsOrD env.endpoint "") "chat/completions" "images/generations")
      ∧ (∀ env : Env, falsy env.imageEndpoint = true →
          containsStr (jsOrD env.endpoint "") "/chat/completions" = false →
          resolveImageEndpoint env
            = "https://ark.cn-beijing.volces.com/api/v3/images/generations")
      ∧ (∀ (env : Env) (o : FetchOutcome) (inp : AtmInput), falsy env.apiKey = true →
          generateAtmosphereImage env o inp = none)
      ∧ (∀ (env : Env) (inp : AtmInput) (b : Option Json),
          generateAtmosphereImage env FetchOutcome.throw inp = none
            ∧ generateAtmosphereImage env (FetchOutcome.resp false b) inp = none
            ∧ generateAtmosphereImage env (FetchOutcome.resp true none) inp = none)
      ∧ (∀ (env : Env) (inp : AtmInput) (data : Json), urlFromPayload data = none →
          generateAtmosphereImage env (FetchOutcome.resp true (some data)) inp = none) := by
  refine ⟨?_, ?_, ?_, ?_, ?_, ?_⟩
  · intro env h
    unfold resolveImageEndpoint
    rw [if_neg (by simp [h])]
  · intro env h1 h2
    unfold resolveImageEndpoint
    rw [if_pos h1]
    show (if containsStr (jsOrD env.endpoint "") "/chat/completions" = true then
            replaceFirst (jsOrD env.endpoint "") "chat/completions" "images/generations"
          else "https://ark.cn-beijing.volces.com/api/v3/images/generations") = _
    rw [if_pos h2]
  · intro env h1 h2
    unfold resolveImageEndpoint
    rw [if_pos h1]
    show (if containsStr (jsOrD env.endpoint "") "/chat/completions" = true then
            replaceFirst (jsOrD env.endpoint "") "chat/completions" "images/generations"
          else "https://ark.cn-beijing.volces.com/api/v3/images/generations") = _
    rw [if_neg (by simp [h2])]
  · intro env o inp h
    unfold generateAtmosphereImage
    rw [if_pos (by simp [h])]
  · intro env inp b
    refine ⟨?_, ?_, ?_⟩ <;>
      · show (if (falsy env.apiKey || (resolveImageEndpoint env).data.isEmpty) = true
              then none else none) = (none : Option String)
        exact ite_self none
  · intro env inp data h
    show (if (falsy env.apiKey || (resolveImageEndpoint env).data.isEmpty) = true
          then none
          else (match urlFromPayload data with | some u => some u | none => none))
        = (none : Option String)
    by_cases hc : (falsy env.apiKey || (resolveImageEndpoint env).data.isEmpty) = true
    · rw [if_pos hc]
    · rw [if_neg hc, h]

/-- C8 witness: the spec conjuncts at concrete configurations — a
dedicated endpoint used as is, derivation from a chat-completions text
endpoint, the hardcoded default, and a missing-key failure. -/
theorem generateAtmosphereImage_spec_witness :
    resolveImageEndpoint
        { apiKey := some "k", endpoint := none, model := none
          imageEndpoint := some "https://img.example/gen", imageModel := none }
        = "https://img.example/gen"
      ∧ resolveImageEndpoint envConfigured
          = replaceFirst "https://ark.example/api/v3/chat/completions"
              "chat/completions" "images/generations"
      ∧ resolveImageEndpoint envUnconfigured
          = "https://ark.cn-beijing.volces.com/api/v3/images/generations"
      ∧ generateAtmosphereImage envUnconfigured FetchOutcome.throw
          { imageUrl := "u", prompt := "p", size := none, model := none } = none := by
  refine ⟨?_, ?_, ?_, ?_⟩
  · exact generateAtmosphereImage_spec.1 _ rfl
  · exact generateAtmosphereImage_spec.2.1 envConfigured rfl rfl
  · exact generateAtmosphereImage_spec.2.2.1 envUnconfigured rfl rfl
  · exact generateAtmosphereImage_spec.2.2.2.1 envUnconfigured FetchOutcome.throw _ rfl

/-- C9: `composeLocal` fails exactly when the source image fails to load,
and the failure is a visible rejection with the fixed message; for every
loadable image it succeeds on the 1024-unit white square canvas with the
uniform scale `min (1024 / w) (1024 / h)` and the drawing centered. -/
theorem composeLocal_spec :
    (∀ t c : String, composeLocal none t c = Except.error "加载图片失败")
      ∧ (∀ (load : Option ImgDims) (t c e : String),
          composeLocal load t c = Except.error e → load = none)
      ∧ (∀ (d : ImgDims) (t c : String), ∃ cv,
          composeLocal (some d) t c = Except.ok cv
            ∧ cv.size = 1024 ∧ cv.background = "#ffffff"
            ∧ cv.ratio = min (1024 / d.width) (1024 / d.height)
            ∧ cv.drawW = d.width * cv.ratio ∧ cv.drawH = d.height * cv.ratio
            ∧ cv.drawX = (1024 - cv.drawW) / 2 ∧ cv.drawY = (1024 - cv.drawH) / 2
            ∧ cv.overlayText = t ∧ cv.borderColor = c
            ∧ (0 < d.width → 0 < d.height →
                cv.drawW ≤ 1024 ∧ cv.drawH ≤ 1024
                  ∧ 2 * cv.drawX + cv.drawW = 1024 ∧ 2 * cv.drawY + cv.drawH = 1024
                  ∧ 0 ≤ cv.drawX ∧ 0 ≤ cv.drawY)) := by
  refine ⟨fun t c => rfl, ?_, ?_⟩
  · intro load t c e h
    rcases load with _ | d
    · rfl
    · exact absurd h (by simp [composeLocal])
  · intro d t c
    refine ⟨_, rfl, rfl, rfl, rfl, rfl, rfl, rfl, rfl, rfl, rfl, ?_⟩
    intro hw hh
    have hW : d.width * min (1024 / d.width) (1024 / d.height) ≤ 1024 := by
      calc d.width * min (1024 / d.width) (1024 / d.height)
          ≤ d.width * (1024 / d.width) :=
            mul_le_mul_of_nonneg_left (min_le_left _ _) (le_of_lt hw)
        _ = 1024 := mul_div_cancel₀ _ (ne_of_gt hw)
    have hH : d.height * min (1024 / d.width) (1024 / d.height) ≤ 1024 := by
      calc d.height * min (1024 / d.width) (1024 / d.height)
          ≤ d.height * (1024 / d.height) :=
            mul_le_mul_of_nonneg_left (min_le_right _ _) (le_of_lt hh)
        _ = 1024 := mul_div_cancel₀ _ (ne_of_gt hh)
    refine ⟨hW, hH, by ring, by ring, ?_, ?_⟩
    · have : (0 : ℚ) ≤ 1024 - d.width * min (1024 / d.width) (1024 / d.height) := by linarith
      positivity
    · have : (0 : ℚ) ≤ 1024 - d.height * min (1024 / d.width) (1024 / d.height) := by linarith
      positivity

/-- C9 witness: loadable 800 by 600 image with positive dimensions, and
the unloadable rejection. -/
theorem composeLocal_spec_witness :
    composeLocal none "覆盖文字" "#3b82f6" = Except.error "加载图片失败"
      ∧ ∃ cv, composeLocal (some { width := 800, height := 600 }) "覆盖文字" "#3b82f6"
          = Except.ok cv ∧ cv.drawW ≤ 1024 ∧ 2 * cv.drawX + cv.drawW = 1024 := by
  refine ⟨composeLocal_spec.1 "覆盖文字" "#3b82f6", ?_⟩
  obtain ⟨cv, h1, _, _, _, _, _, _, _, _, _, hb⟩ :=
    composeLocal_spec.2.2 { width := 800, height := 600 } "覆盖文字" "#3b82f6"
  obtain ⟨hW, _, hX, _, _, _⟩ := hb (by norm_num) (by norm_num)
  exact ⟨cv, h1, hW, hX⟩

/-- C10: in the client's message mapping, no turn other than the final
one ever carries the image, and when the final turn's role is not `user`
the supplied image reference is dropped and every turn is sent as plain
text. -/
theorem mapMessages_image_policy :
    (∀ (msgs : List ChatMessage) (img : Option String) (k : Nat) (mm : MappedMsg),
        k ≠ msgs.length - 1 → (mapMessages msgs img).get? k = some mm →
        ∃ t, mm.content = MappedContent.textOnly t)
      ∧ (∀ (msgs : List ChatMessage) (img : Option String) (last : ChatMessage),
          msgs.getLast? = some last → last.role ≠ Role.user →
          ∀ (k : Nat) (mm : MappedMsg), (mapMessages msgs img).get? k = some mm →
          ∃ t, mm.content = MappedContent.textOnly t) := by
  constructor
  · intro msgs img k mm hk hget
    rw [mapMessages_get?] at hget
    rcases hm : msgs.get? k with _ | m
    · rw [hm] at hget; simp at hget
    · rw [hm] at hget
      simp at hget
      rw [mapOne_not_last msgs.length img k m hk] at hget
      exact ⟨m.content, by rw [← hget]⟩
  · intro msgs img last hlast hrole k mm hget
    rw [mapMessages_get?] at hget
    rcases hm : msgs.get? k with _ | m
    · rw [hm] at hget; simp at hget
    · rw [hm] at hget
      simp at hget
      by_cases hk : k = msgs.length - 1
      · subst hk
        have hml : msgs.get? (msgs.length - 1) = some last := by
          rw [← List.getLast?_eq_get? msgs]
          exact hlast
        rw [hm] at hml
        obtain rfl : m = last := by simpa using hml
        rw [mapOne_not_user msgs.length img _ m hrole] at hget
        exact ⟨m.content, by rw [← hget]⟩
      · rw [mapOne_not_last msgs.length img k m hk] at hget
        exact ⟨m.content, by rw [← hget]⟩

/-- C10 witness: a two-turn list ending in an assistant turn with an
image supplied — the mapped first turn is plain text. -/
theorem mapMessages_image_policy_witness :
    ([({ role := Role.user, content := "你好" } : ChatMessage),
      { role := Role.assistant, content := "回复" }].getLast?
        = some ({ role := Role.assistant, content := "回复" } : ChatMessage))
      ∧ ({ role := Role.assistant, content := "回复" } : ChatMessage).role ≠ Role.user
      ∧ (mapMessages [{ role := Role.user, content := "你好" },
          { role := Role.assistant, content := "回复" }] (some "https://img.example/x")).get? 0
          = some { role := Role.user, content := MappedContent.textOnly "你好" }
      ∧ ∃ t, ({ role := Role.user, content := MappedContent.textOnly "你好" } : MappedMsg).content
          = MappedContent.textOnly t := by
  refine ⟨rfl, by decide, rfl, ?_⟩
  exact mapMessages_image_policy.2
    [{ role := Role.user, content := "你好" }, { role := Role.assistant, content := "回复" }]
    (some "https://img.example/x") { role := Role.assistant, content := "回复" } rfl (by decide)
    0 { role := Role.user, content := MappedContent.textOnly "你好" } rfl
